import Mathlib

/-!
Verification development for the Tessera Data App forecasting engine and
authentication layer.

The repository ships the database schema (backend/forecast_schema.sql), the
authentication routes (backend/src/routes/auth.ts), and the documentation of
a Python forecast engine (forecast-engine README) whose source files
(models/sma.py, models/wma.py, models/exp_smoothing.py, models/holt_winters.py,
models/arima.py, models/prophet.py, utils/metrics.py, run_forecast.py) are not
part of the repository snapshot.  Definitions for the engine are therefore
modelled from the specification; definitions for the authentication layer are
translated from backend/src/routes/auth.ts.

All quantities are embedded as exact rationals.
-/

namespace Tessera

/-! ## Confidence Interval Estimator (spec 4.4) -/

/-- Modelled from the spec: z-score for the 80% confidence interval,
z = 1.2816.  The Confidence Interval Estimator is part of the missing
forecast-engine sources. -/
def z80 : ℚ := 12816 / 10000

/-- Modelled from the spec: z-score for the 95% confidence interval,
z = 1.96. -/
def z95 : ℚ := 196 / 100

/-- One produced detail row's forecast value columns: the point forecast and
the four confidence bounds, mirroring forecasted_quantity, lower_bound_80,
upper_bound_80, lower_bound_95, upper_bound_95 of raw_tenant_data.forecast_data. -/
structure BoundedPoint where
  point : ℚ
  lower80 : ℚ
  upper80 : ℚ
  lower95 : ℚ
  upper95 : ℚ
deriving DecidableEq, Repr

/-- Modelled from the spec: bound = point ± z·residual_std, with z = 1.2816
for 80% and z = 1.96 for 95%; the missing Confidence Interval Estimator does
not branch per model type. -/
def confidenceBounds (point residualStd : ℚ) : BoundedPoint :=
  { point := point
    lower80 := point - z80 * residualStd
    upper80 := point + z80 * residualStd
    lower95 := point - z95 * residualStd
    upper95 := point + z95 * residualStd }

/-- Modelled from the spec: the Orchestrator computes confidence bounds per
period from each forecast step's (point_estimate, residual_std_estimate) pair,
assembling one detail row per period. -/
def assembleDetailRows (steps : List (ℚ × ℚ)) : List BoundedPoint :=
  steps.map fun pr => confidenceBounds pr.1 pr.2

/-! ## Authentication routes (backend/src/routes/auth.ts) -/

/-- A row of the users table as selected by the login query:
id, email, password_hash, name, role, tenant_id. -/
structure AuthUser where
  id : Nat
  email : String
  passwordHash : String
  name : String
  role : String
  tenantId : String
deriving DecidableEq, Repr

/-- The observable part of an HTTP response: status code and message body. -/
structure HttpResponse where
  status : Nat
  message : String
deriving DecidableEq, Repr

/-- The SELECT ... WHERE email = $1 lookup of the login endpoint. -/
def findUserByEmail (users : List AuthUser) (email : String) : Option AuthUser :=
  users.find? fun u => u.email = email

/-- The login endpoint of auth.ts.  Absent (`none`) or empty email/password is
the falsy guard returning 400; an email with no matching user row returns
401 Invalid credentials; a bcrypt mismatch returns 401 Invalid credentials;
otherwise login succeeds.  The bcrypt comparison is the external library call,
passed in as `cmp`. -/
def loginHandler (users : List AuthUser) (cmp : String → String → Bool)
    (email password : Option String) : HttpResponse :=
  match email, password with
  | some e, some p =>
    if e = ("") || p = ("") then { status := 400, message := ("Email and password are required") }
    else
      match findUserByEmail users e with
      | none => { status := 401, message := ("Invalid credentials") }
      | some u =>
        if cmp p u.passwordHash then { status := 200, message := ("Login successful") }
        else { status := 401, message := ("Invalid credentials") }
  | _, _ => { status := 400, message := ("Email and password are required") }

/-- The request body of the register endpoint; a missing field is `none`.
The destructuring `role = 'admin'` default of auth.ts is applied by
`registerHandler`, not stored here. -/
structure RegisterRequest where
  email : Option String
  password : Option String
  name : Option String
  tenantId : Option String
  role : Option String
deriving DecidableEq, Repr

/-- The column values of the INSERT INTO users statement of the register
endpoint: email, password_hash, name, tenant_id, role. -/
structure NewUser where
  email : String
  passwordHash : String
  name : String
  tenantId : String
  role : String
deriving DecidableEq, Repr

/-- The register endpoint of auth.ts.  `role = 'admin'` is the destructuring
default when the body omits role; missing or empty required fields return 400;
an existing email returns 409; otherwise the user row of the INSERT is
returned with status 201.  Password hashing is the external bcrypt call,
passed in as `hash`. -/
def registerHandler (existingEmails : List String) (hash : String → String)
    (req : RegisterRequest) : HttpResponse × Option NewUser :=
  match req.email, req.password, req.name, req.tenantId with
  | some e, some p, some n, some t =>
    if e = ("") || p = ("") || n = ("") || t = ("") then
      ({ status := 400, message := ("All fields are required") }, none)
    else if existingEmails.contains e then
      ({ status := 409, message := ("User already exists") }, none)
    else
      ({ status := 201, message := ("User created successfully") },
        some { email := e, passwordHash := hash p, name := n, tenantId := t,
               role := (req.role.getD ("admin")) })
  | _, _, _, _ => ({ status := 400, message := ("All fields are required") }, none)

/-! ## Metrics Calculator (spec 4.3, missing utils/metrics.py) -/

/-- The sum of a list of rationals. -/
def listSum (xs : List ℚ) : ℚ := xs.sum

/-- The arithmetic mean of a list of rationals (0 on the empty list, since
rational division by zero is zero). -/
def listMean (xs : List ℚ) : ℚ := listSum xs / xs.length

/-- Modelled from the spec: failure of the missing Metrics Calculator when no
valid actual/forecast pairs remain. -/
inductive MetricsFailure where
  | noValidPairs
deriving DecidableEq, Repr

/-- The five summary accuracy metrics of a forecast run, as persisted on the
raw_tenant_data.forecasts header.  `mape` is none when every period was
skipped for a zero actual; `mapeSkipped` counts the skipped periods.  `mse`
is the mean squared error, the square of the RMSE. -/
structure MetricsResult where
  mape : Option ℚ
  mapeSkipped : Nat
  mad : ℚ
  mse : ℚ
  bias : ℚ
  trackingSignal : ℚ
deriving DecidableEq, Repr

/-- RMSE is the nonnegative real square root of the mean squared error; this
predicate characterises it without leaving the rational embedding. -/
def isRMSE (m : MetricsResult) (r : ℝ) : Prop := 0 ≤ r ∧ r ^ 2 = (m.mse : ℝ)

/-- Modelled from the spec: the aligned (actual, forecast) pairs over periods
where the actual is defined; periods without an actual are excluded. -/
def alignPairs (rows : List (Option ℚ × ℚ)) : List (ℚ × ℚ) :=
  rows.filterMap fun r => r.1.map fun a => (a, r.2)

/-- Modelled from the spec: the pairs that MAPE keeps, i.e. those whose
actual is nonzero; zero-actual periods are skipped. -/
def mapePairs (pairs : List (ℚ × ℚ)) : List (ℚ × ℚ) :=
  pairs.filter fun pr => decide (pr.1 ≠ 0)

/-- Modelled from the spec: the missing Metrics Calculator.  Over the aligned
pairs it computes MAPE = mean(|actual − forecast| / |actual|) × 100 excluding
zero actuals (none when every period is excluded, with the skipped periods
counted), MAD = mean |actual − forecast|, MSE = mean (actual − forecast)²
(whose square root is RMSE), Bias = mean(actual − forecast) / mean(actual)
× 100, and Tracking Signal = sum(actual − forecast) / MAD; it fails when no
pairs remain after exclusions. -/
def computeMetrics (rows : List (Option ℚ × ℚ)) :
    Except MetricsFailure MetricsResult :=
  let pairs := alignPairs rows
  if pairs = [] then Except.error MetricsFailure.noValidPairs
  else
    let n : ℚ := pairs.length
    let errs := pairs.map fun pr => pr.1 - pr.2
    let nz := mapePairs pairs
    let mape : Option ℚ :=
      if nz = [] then none
      else some (100 * (listSum (nz.map fun pr => |pr.1 - pr.2| / |pr.1|) / nz.length))
    let mad := listSum (errs.map fun e => |e|) / n
    let mse := listSum (errs.map fun e => e ^ 2) / n
    let meanActual := listSum (pairs.map Prod.fst) / n
    let bias := 100 * (listSum errs / n) / meanActual
    Except.ok
      { mape := mape
        mapeSkipped := pairs.length - nz.length
        mad := mad
        mse := mse
        bias := bias
        trackingSignal := listSum errs / mad }

/-! ## Round-trip persistence of actuals (spec section 6) -/

/-- The projection of a raw_tenant_data.forecast_data row that metric
recomputation reads back: forecasted_quantity and the nullable
actual_quantity. -/
structure StoredDetailRow where
  forecastedQuantity : ℚ
  actualQuantity : Option ℚ
deriving DecidableEq, Repr

/-- Modelled from the spec: persisting each (actual, forecast) pair into a
detail row's actual_quantity and forecasted_quantity columns. -/
def persistActuals (rows : List (Option ℚ × ℚ)) : List StoredDetailRow :=
  rows.map fun r => { forecastedQuantity := r.2, actualQuantity := r.1 }

/-- Modelled from the spec: feeding previously persisted actuals back into
the engine as (actual, forecast) pairs. -/
def reloadPairs (stored : List StoredDetailRow) : List (Option ℚ × ℚ) :=
  stored.map fun s => (s.actualQuantity, s.forecastedQuantity)

/-! ## Model implementations (spec 4.2, missing models directory) -/

/-- Modelled from the spec: errors of the forecasting engine (section 7):
configuration errors are rejected before any computation, model fit errors
name the offending parameter, insufficient data is recoverable by the
caller. -/
inductive EngineError where
  | configuration (msg : String)
  | insufficientData (msg : String)
  | modelFit (msg : String)
deriving DecidableEq, Repr

/-- The last `w` points of a series, the SMA/WMA fitting window. -/
def lastWindow (w : Nat) (xs : List ℚ) : List ℚ := xs.drop (xs.length - w)

/-- Sample variance of a list of residuals (0 when fewer than two residuals),
the square of the sample standard deviation. -/
def sampleVar (rs : List ℚ) : ℚ :=
  if rs.length ≤ 1 then 0
  else listSum (rs.map fun r => (r - listMean rs) ^ 2) / ((rs.length : ℚ) - 1)

/-- Modelled from the spec: residuals of a rolling one-step-ahead SMA
backtest; position i is predicted by the mean of the w points before it. -/
def smaBacktestResiduals (w : Nat) (xs : List ℚ) : List ℚ :=
  (List.range (xs.length - w)).map fun i =>
    xs.getD (w + i) 0 - listMean ((xs.drop i).take w)

/-- Fitted state of the SMA model: the flat forecast level and the residual
variance (square of the residual std estimate). -/
structure SmaState where
  level : ℚ
  residualVar : ℚ
deriving DecidableEq, Repr

/-- Modelled from the spec: SMA fit.  Fails fast on a zero window or fewer
points than the window; otherwise the level is the unweighted mean of the
last `window` points and the residual variance comes from the rolling
one-step-ahead backtest. -/
def smaFit (window : Nat) (xs : List ℚ) : Except EngineError SmaState :=
  if window = 0 then Except.error (EngineError.modelFit ("window must be positive"))
  else if xs.length < window then
    Except.error (EngineError.insufficientData ("series shorter than window"))
  else Except.ok
    { level := listMean (lastWindow window xs)
      residualVar := sampleVar (smaBacktestResiduals window xs) }

/-- A flat forecast: the same (point, residual variance) pair at every
horizon step. -/
def flatForecast (level residualVar : ℚ) (h : Nat) : List (ℚ × ℚ) :=
  List.replicate h (level, residualVar)

/-- SMA forecast: flat at the fitted level for every horizon step. -/
def smaForecast (st : SmaState) (h : Nat) : List (ℚ × ℚ) :=
  flatForecast st.level st.residualVar h

/-- Fitted state of the WMA model. -/
structure WmaState where
  level : ℚ
  residualVar : ℚ
deriving DecidableEq, Repr

/-- Dot product of two rational lists, used for the weighted average. -/
def dotProduct (ws xs : List ℚ) : ℚ :=
  listSum ((ws.zip xs).map fun pr => pr.1 * pr.2)

/-- Modelled from the spec: residuals of a rolling one-step-ahead WMA
backtest with normalized weights. -/
def wmaBacktestResiduals (w : Nat) (norm : List ℚ) (xs : List ℚ) : List ℚ :=
  (List.range (xs.length - w)).map fun i =>
    xs.getD (w + i) 0 - dotProduct norm ((xs.drop i).take w)

/-- Modelled from the spec: WMA fit.  Weight count must equal the window
size, weights must be non-negative with a positive sum, and they are
normalized to sum to 1 before the weighted average of the last `window`
points is taken. -/
def wmaFit (window : Nat) (weights : List ℚ) (xs : List ℚ) :
    Except EngineError WmaState :=
  if window = 0 then Except.error (EngineError.modelFit ("window must be positive"))
  else if weights.length ≠ window then
    Except.error (EngineError.modelFit ("weight count must equal window size"))
  else if weights.any fun w => decide (w < 0) then
    Except.error (EngineError.modelFit ("weights must be non-negative"))
  else if listSum weights = 0 then
    Except.error (EngineError.modelFit ("weights must not all be zero"))
  else if xs.length < window then
    Except.error (EngineError.insufficientData ("series shorter than window"))
  else
    let norm := weights.map fun w => w / listSum weights
    Except.ok
      { level := dotProduct norm (lastWindow window xs)
        residualVar := sampleVar (wmaBacktestResiduals window norm xs) }

/-- WMA forecast: flat at the fitted weighted level. -/
def wmaForecast (st : WmaState) (h : Nat) : List (ℚ × ℚ) :=
  flatForecast st.level st.residualVar h

/-- Fitted state of the Exponential Smoothing model: the final level and the
residual variance of the one-step-ahead fitting errors. -/
structure ExpSmoothingState where
  level : ℚ
  residualVar : ℚ
deriving DecidableEq, Repr

/-- One recursive level update: level_t = alpha*value_t + (1-alpha)*level_(t-1). -/
def expStep (alpha lvl v : ℚ) : ℚ := alpha * v + (1 - alpha) * lvl

/-- The final level after folding the recursive update over the series,
initialising the level at the first observation. -/
def expLevel (alpha : ℚ) : List ℚ → ℚ
  | [] => 0
  | x :: rest => rest.foldl (expStep alpha) x

/-- One-step-ahead prediction errors accumulated during the level recursion. -/
def expErrAux (alpha : ℚ) : ℚ → List ℚ → List ℚ
  | _, [] => []
  | lvl, v :: vs => (v - lvl) :: expErrAux alpha (expStep alpha lvl v) vs

/-- One-step-ahead prediction errors of the whole fit (none for the first
observation, which seeds the level). -/
def expOneStepErrors (alpha : ℚ) : List ℚ → List ℚ
  | [] => []
  | x :: rest => expErrAux alpha x rest

/-- Modelled from the spec: Exponential Smoothing fit.  Fails fast unless
alpha ∈ (0,1] and the series is non-empty; the level follows the recursive
update and the residual variance comes from the one-step-ahead errors. -/
def expSmoothingFit (alpha : ℚ) (xs : List ℚ) :
    Except EngineError ExpSmoothingState :=
  if ¬ (0 < alpha ∧ alpha ≤ 1) then
    Except.error (EngineError.modelFit ("alpha must lie in (0,1]"))
  else
    match xs with
    | [] => Except.error (EngineError.insufficientData ("series is empty"))
    | x :: rest =>
      Except.ok
        { level := expLevel alpha (x :: rest)
          residualVar := sampleVar (expOneStepErrors alpha (x :: rest)) }

/-- Exponential Smoothing forecast: flat at the final level for every
horizon step. -/
def expSmoothingForecast (st : ExpSmoothingState) (h : Nat) : List (ℚ × ℚ) :=
  flatForecast st.level st.residualVar h

/-- Modelled from the spec: a naive last-observed-value forecast, the
reference behaviour Exponential Smoothing with alpha = 1 must reduce to
(stated from the spec's words for the refinement comparison). -/
def naiveForecast (xs : List ℚ) (h : Nat) : List ℚ :=
  List.replicate h (xs.getLastD 0)

/-- Fitted state of the Holt-Winters model: level, trend and seasonal
components, the seasonality flavour, and the base residual variance. -/
structure HoltWintersState where
  level : ℚ
  trend : ℚ
  seasonal : List ℚ
  multiplicative : Bool
  residualVar : ℚ
deriving DecidableEq, Repr

/-- The seasonal component for horizon step i, cycling through the fitted
seasonal list (neutral element when the list is empty). -/
def hwSeasonalAt (st : HoltWintersState) (i : Nat) : ℚ :=
  st.seasonal.getD (i % st.seasonal.length) (if st.multiplicative then 1 else 0)

/-- Modelled from the spec: Holt-Winters forecast at step h is
level + h·trend combined with the seasonal component of the corresponding
phase (additively or multiplicatively); the residual variance grows with the
horizon to reflect compounding uncertainty. -/
def holtWintersForecast (st : HoltWintersState) (h : Nat) : List (ℚ × ℚ) :=
  (List.range h).map fun (i : Nat) =>
    let base := st.level + ((i : ℚ) + 1) * st.trend
    let pt := if st.multiplicative then base * hwSeasonalAt st i
              else base + hwSeasonalAt st i
    (pt, st.residualVar * ((i : ℚ) + 1))

/-- Fitted state of the ARIMA model: AR and MA coefficients on the
differenced scale, the differenced history, the last original-scale values
seeding each integration level, and the innovation variance. -/
structure ArimaState where
  phi : List ℚ
  theta : List ℚ
  diffHistory : List ℚ
  lastValues : List ℚ
  residualVar : ℚ
deriving DecidableEq, Repr

/-- The next value of a linear recurrence: coefficients applied to the most
recent history values (most recent first). -/
def recurrenceNext (coeffs hist : List ℚ) : ℚ :=
  dotProduct coeffs hist.reverse

/-- Modelled from the spec: the ARMA forecast recursion on the differenced
scale.  Each step applies the AR coefficients to the extended history and
the MA coefficients to the residual tail, with future innovations taken as
zero. -/
def armaRecurse (phi theta : List ℚ) : Nat → List ℚ → List ℚ → List ℚ
  | 0, _, _ => []
  | n + 1, hist, resid =>
    let nxt := recurrenceNext phi hist + recurrenceNext theta resid
    nxt :: armaRecurse phi theta n (hist ++ [nxt]) (resid ++ [0])

/-- One level of undifferencing: cumulative sums seeded by the last
original-scale value. -/
def integrateOnce (seed : ℚ) (xs : List ℚ) : List ℚ :=
  (xs.scanl (fun a b => a + b) seed).drop 1

/-- d-fold undifferencing, one seed per differencing level. -/
def integrateAll : List ℚ → List ℚ → List ℚ
  | [], xs => xs
  | s :: rest, xs => integrateAll rest (integrateOnce s xs)

/-- Modelled from the spec: ARIMA forecast.  Points recurse through the
fitted coefficients and are integrated back d times; the forecast-error
variance accumulates per step. -/
def arimaForecast (st : ArimaState) (h : Nat) : List (ℚ × ℚ) :=
  ((integrateAll st.lastValues
      (armaRecurse st.phi st.theta h st.diffHistory [])).zip
    ((List.range h).map fun i => st.residualVar * ((i : ℚ) + 1)))

/-- Fitted state of the Prophet-style model: trend, seasonal and known-date
component contributions as functions of the horizon step, plus the
in-sample residual variance. -/
structure ProphetState where
  trendAt : Nat → ℚ
  seasonalAt : Nat → ℚ
  holidayAt : Nat → ℚ
  residualVar : ℚ

/-- Modelled from the spec: Prophet-style forecast = sum of the component
contributions at each future period, with the in-sample residual variance. -/
def prophetForecast (st : ProphetState) (h : Nat) : List (ℚ × ℚ) :=
  (List.range h).map fun i =>
    (st.trendAt i + st.seasonalAt i + st.holidayAt i, st.residualVar)

/-- The fitted state of any of the six models, the closed set of variants
sharing the fit/forecast contract. -/
inductive FittedState where
  | sma (st : SmaState)
  | wma (st : WmaState)
  | expSmoothing (st : ExpSmoothingState)
  | holtWinters (st : HoltWintersState)
  | arima (st : ArimaState)
  | prophet (st : ProphetState)

/-- The uniform forecast contract: dispatch to the forecast function of the
fitted model, producing one (point_estimate, residual variance) pair per
horizon step. -/
def forecastModel : FittedState → Nat → List (ℚ × ℚ)
  | FittedState.sma st, h => smaForecast st h
  | FittedState.wma st, h => wmaForecast st h
  | FittedState.expSmoothing st, h => expSmoothingForecast st h
  | FittedState.holtWinters st, h => holtWintersForecast st h
  | FittedState.arima st, h => arimaForecast st h
  | FittedState.prophet st, h => prophetForecast st h

/-! ## Forecast Orchestrator (spec 4.5, missing run_forecast.py) -/

/-- The six model type codes, as in the model_type column comment of
raw_tenant_data.forecasts and the frontend ForecastModel union. -/
inductive ModelType where
  | sma
  | wma
  | expSmoothing
  | holtWinters
  | arima
  | prophet
deriving DecidableEq, Repr

/-- Parsing of the model type code strings sma, wma, exp-smoothing,
holt-winters, arima, prophet; anything else is unknown. -/
def parseModelType (s : String) : Option ModelType :=
  if s = ("sma") then some ModelType.sma
  else if s = ("wma") then some ModelType.wma
  else if s = ("exp-smoothing") then some ModelType.expSmoothing
  else if s = ("holt-winters") then some ModelType.holtWinters
  else if s = ("arima") then some ModelType.arima
  else if s = ("prophet") then some ModelType.prophet
  else none

/-- The four time granularities, as in the time_granularity column comment
of raw_tenant_data.forecasts and the frontend TimeGranularity union. -/
inductive Granularity where
  | daily
  | weekly
  | monthly
  | quarterly
deriving DecidableEq, Repr

/-- Parsing of the granularity strings daily, weekly, monthly, quarterly. -/
def parseGranularity (s : String) : Option Granularity :=
  if s = ("daily") then some Granularity.daily
  else if s = ("weekly") then some Granularity.weekly
  else if s = ("monthly") then some Granularity.monthly
  else if s = ("quarterly") then some Granularity.quarterly
  else none

/-- Days per granularity period used to convert horizon_days into a period
count (a month is taken as 30 days and a quarter as 90). -/
def granularityDays : Granularity → Nat
  | Granularity.daily => 1
  | Granularity.weekly => 7
  | Granularity.monthly => 30
  | Granularity.quarterly => 90

/-- Modelled from the spec: horizon_days resolved to an integer count of
granularity periods, rounding up. -/
def horizonPeriods (g : Granularity) (horizonDays : Int) : Nat :=
  ((horizonDays + granularityDays g - 1) / granularityDays g).toNat

/-- The record set a run returns: one detail row per period. -/
def RunOutput : Type := List BoundedPoint

/-- Modelled from the spec: the Forecast Orchestrator's validation gate.
An unknown model type, a non-positive horizon, or an invalid granularity is
rejected with a ConfigurationError before the preparation / fit / forecast /
metrics pipeline (passed in as `pipeline`) is ever consulted; a valid
configuration hands the parsed model type, granularity and period count to
the pipeline. -/
def orchestratorRun
    (pipeline : ModelType → Granularity → Nat → List ℚ → Except EngineError RunOutput)
    (modelType granularity : String) (horizonDays : Int)
    (observations : List ℚ) : Except EngineError RunOutput :=
  match parseModelType modelType with
  | none => Except.error (EngineError.configuration
      (("unknown model type: ") ++ modelType))
  | some m =>
    if horizonDays ≤ 0 then
      Except.error (EngineError.configuration ("non-positive horizon"))
    else
      match parseGranularity granularity with
      | none => Except.error (EngineError.configuration
          (("invalid granularity: ") ++ granularity))
      | some g => pipeline m g (horizonPeriods g horizonDays) observations

/-- Modelled from the spec: the configuration error message a run with the
given arguments is rejected with (empty when the configuration is valid, in
which case it is never used). -/
def configErrorMsg (modelType granularity : String) (horizonDays : Int) : String :=
  match parseModelType modelType with
  | none => ("unknown model type: ") ++ modelType
  | some _ =>
    if horizonDays ≤ 0 then ("non-positive horizon")
    else
      match parseGranularity granularity with
      | none => ("invalid granularity: ") ++ granularity
      | some _ => ("")

/-- The fitted SMA state on the example series [10, 20, 30] with window 3. -/
def smaExampleState : SmaState := { level := 20, residualVar := 0 }

/-- The fitted Exponential Smoothing state with alpha = 1 on the example
series [10, 20]. -/
def expExampleState : ExpSmoothingState := { level := 20, residualVar := 0 }

/-- Concrete rows with one zero-actual period, used to instantiate the MAPE
exclusion theorem. -/
def metricsSkipRows : List (Option ℚ × ℚ) := [(some 0, 1), (some 2, 2)]

/-- The metric values the calculator produces on `metricsSkipRows`. -/
def metricsSkipValue : MetricsResult :=
  { mape := some 0, mapeSkipped := 1, mad := 1/2, mse := 1/2, bias := -50,
    trackingSignal := -2 }

/-- Concrete perfectly matching rows, used to instantiate the zero-metrics
theorem. -/
def metricsPerfectRows : List (Option ℚ × ℚ) := [(some 3, 3), (some 1, 1)]

/-- The metric values the calculator produces on `metricsPerfectRows`. -/
def metricsPerfectValue : MetricsResult :=
  { mape := some 0, mapeSkipped := 0, mad := 0, mse := 0, bias := 0,
    trackingSignal := 0 }

end Tessera

namespace Tessera

/-- Ordering of the z-scores used by the bound chain. -/
theorem z80_le_z95 : z80 ≤ z95 := by norm_num [z80, z95]

/-- Nonnegativity of the 80% z-score. -/
theorem z80_nonneg : 0 ≤ z80 := by norm_num [z80]

/-- C1: every detail row assembled from forecast steps whose
residual_std_estimate is nonnegative satisfies
lower_95 ≤ lower_80 ≤ point ≤ upper_80 ≤ upper_95, by the estimator formula
bound = point ± z·residual_std with z = 1.2816 (80%) and z = 1.96 (95%). -/
theorem detail_row_bounds_ordered (steps : List (ℚ × ℚ))
    (hstd : ∀ pr ∈ steps, 0 ≤ pr.2) :
    ∀ row ∈ assembleDetailRows steps,
      row.lower95 ≤ row.lower80 ∧ row.lower80 ≤ row.point ∧
      row.point ≤ row.upper80 ∧ row.upper80 ≤ row.upper95 := by
  intro row hrow
  rcases List.mem_map.mp hrow with ⟨pr, hpr, hrw⟩
  have hs : 0 ≤ pr.2 := hstd pr hpr
  have h80 : 0 ≤ z80 * pr.2 := mul_nonneg z80_nonneg hs
  have hz : z80 * pr.2 ≤ z95 * pr.2 := mul_le_mul_of_nonneg_right z80_le_z95 hs
  subst hrw
  refine ⟨?_, ?_, ?_, ?_⟩ <;> simp only [confidenceBounds] <;> linarith

/-- Witness for C1: the row assembled from point 5 with residual std 2 has
its bounds in the stated order. -/
theorem detail_row_bounds_ordered_witness :
    (confidenceBounds 5 2).lower95 ≤ (confidenceBounds 5 2).lower80 ∧
    (confidenceBounds 5 2).lower80 ≤ (confidenceBounds 5 2).point ∧
    (confidenceBounds 5 2).point ≤ (confidenceBounds 5 2).upper80 ∧
    (confidenceBounds 5 2).upper80 ≤ (confidenceBounds 5 2).upper95 :=
  detail_row_bounds_ordered [(5, 2)] (by decide) (confidenceBounds 5 2)
    (by simp [assembleDetailRows])

/-- C9: the login endpoint returns status 401 with the identical message
Invalid credentials both when no user row matches the email and when the
bcrypt comparison fails, so the two failure causes produce the same
response. -/
theorem login_indistinguishable_failures (users : List AuthUser)
    (cmp : String → String → Bool) (e p : String)
    (he : e ≠ ("")) (hp : p ≠ ("")) :
    (findUserByEmail users e = none →
      loginHandler users cmp (some e) (some p) =
        { status := 401, message := ("Invalid credentials") }) ∧
    (∀ u, findUserByEmail users e = some u → cmp p u.passwordHash = false →
      loginHandler users cmp (some e) (some p) =
        { status := 401, message := ("Invalid credentials") }) := by
  constructor
  · intro hfind
    simp [loginHandler, he, hp, hfind]
  · intro u hfind hcmp
    simp [loginHandler, he, hp, hfind, hcmp]

/-- Witness for C9: with an empty users table the login response for a
concrete email and password is 401 Invalid credentials. -/
theorem login_indistinguishable_failures_witness :
    loginHandler [] (fun _ _ => false) (some ("a@b.c")) (some ("pw")) =
      { status := 401, message := ("Invalid credentials") } :=
  (login_indistinguishable_failures [] (fun _ _ => false) ("a@b.c") ("pw")
    (by decide) (by decide)).1 rfl

/-- C10: the register endpoint, given email, password, name and tenantId but
no role field, creates the new user with role admin. -/
theorem register_default_role_admin (existingEmails : List String)
    (hash : String → String) (e p n t : String)
    (he : e ≠ ("")) (hp : p ≠ ("")) (hn : n ≠ ("")) (ht : t ≠ (""))
    (hnew : existingEmails.contains e = false) :
    registerHandler existingEmails hash
        { email := some e, password := some p, name := some n,
          tenantId := some t, role := none } =
      ({ status := 201, message := ("User created successfully") },
        some { email := e, passwordHash := hash p, name := n, tenantId := t,
               role := ("admin") }) := by
  simp [registerHandler, he, hp, hn, ht, hnew, Option.getD]
  intro hmem
  simp [List.contains, List.elem_eq_mem, hmem] at hnew

/-- A list whose members are all zero sums to zero. -/
theorem listSum_zero_of_all_zero {xs : List ℚ} (h : ∀ x ∈ xs, x = 0) :
    listSum xs = 0 := by
  simpa [listSum] using List.sum_eq_zero h

/-- C3: the Metrics Calculator fails with MetricsError when no aligned pairs
remain after exclusions, and otherwise computes MAPE as
mean(|actual − forecast| / |actual|) × 100 over the periods whose actual is
nonzero, returning none when every period was skipped and counting the
skipped periods. -/
theorem mape_exclusions_and_empty_error (rows : List (Option ℚ × ℚ)) :
    (alignPairs rows = [] →
      computeMetrics rows = Except.error MetricsFailure.noValidPairs) ∧
    (∀ m, computeMetrics rows = Except.ok m →
      m.mapeSkipped =
        (alignPairs rows).length - (mapePairs (alignPairs rows)).length ∧
      (mapePairs (alignPairs rows) = [] → m.mape = none) ∧
      (mapePairs (alignPairs rows) ≠ [] →
        m.mape = some (100 *
          (listSum ((mapePairs (alignPairs rows)).map fun pr =>
            |pr.1 - pr.2| / |pr.1|) / (mapePairs (alignPairs rows)).length)))) := by
  by_cases hp : alignPairs rows = []
  · refine ⟨fun _ => ?_, fun m hm => ?_⟩
    · simp [computeMetrics, hp]
    · simp [computeMetrics, hp] at hm
  · refine ⟨fun h => absurd h hp, fun m hm => ?_⟩
    simp only [computeMetrics, if_neg hp] at hm
    have hm2 := Except.ok.inj hm
    subst hm2
    refine ⟨rfl, fun hz => ?_, fun hz => ?_⟩
    · simp [hz]
    · simp [hz]

/-- Witness for C3: on the rows [(actual 0, forecast 1), (actual 2, forecast 2)]
the calculator skips one period for a zero actual and reports MAPE computed
over the remaining pair. -/
theorem mape_exclusions_and_empty_error_witness :
    metricsSkipValue.mapeSkipped =
      (alignPairs metricsSkipRows).length -
        (mapePairs (alignPairs metricsSkipRows)).length ∧
    metricsSkipValue.mape =
      some (100 * (listSum ((mapePairs (alignPairs metricsSkipRows)).map
        fun pr => |pr.1 - pr.2| / |pr.1|) /
          (mapePairs (alignPairs metricsSkipRows)).length)) := by
  have h := (mape_exclusions_and_empty_error metricsSkipRows).2 metricsSkipValue
    (by
      norm_num [computeMetrics, alignPairs, mapePairs, listSum,
        metricsSkipRows, metricsSkipValue, List.filterMap_cons, List.filter_cons]
      simp)
  exact ⟨h.1, h.2.2 (by decide)⟩

/-- C5: on a perfectly matching series (forecast = actual on every aligned
pair), with some nonzero actual and a nonzero mean actual, the calculator
returns MAPE exactly 0, MAD exactly 0, Bias exactly 0, and an RMSE of
exactly 0. -/
theorem perfect_forecast_zero_metrics (rows : List (Option ℚ × ℚ))
    (m : MetricsResult)
    (hperfect : ∀ pr ∈ alignPairs rows, pr.2 = pr.1)
    (hok : computeMetrics rows = Except.ok m)
    (hnz : mapePairs (alignPairs rows) ≠ [])
    (hmean : listMean ((alignPairs rows).map Prod.fst) ≠ 0) :
    m.mape = some 0 ∧ m.mad = 0 ∧ m.mse = 0 ∧ m.bias = 0 ∧ isRMSE m 0 := by
  have hp : alignPairs rows ≠ [] := by
    intro h
    exact hnz (by simp [mapePairs, h])
  simp only [computeMetrics, if_neg hp] at hok
  obtain ⟨mmape, mskip, mmad, mmse, mbias, mts⟩ := m
  have hm2 := Except.ok.inj hok
  rw [MetricsResult.mk.injEq] at hm2
  obtain ⟨h1, h2, h3, h4, h5, h6⟩ := hm2
  have herr : ∀ e ∈ (alignPairs rows).map (fun pr => pr.1 - pr.2), e = 0 := by
    intro e he
    rcases List.mem_map.mp he with ⟨pr, hpr, rfl⟩
    rw [hperfect pr hpr]
    ring
  have hsum : listSum ((alignPairs rows).map fun pr => pr.1 - pr.2) = 0 :=
    listSum_zero_of_all_zero herr
  have habs : listSum (((alignPairs rows).map fun pr => pr.1 - pr.2).map
      fun e => |e|) = 0 := by
    apply listSum_zero_of_all_zero
    intro x hx
    rcases List.mem_map.mp hx with ⟨e, he, rfl⟩
    rw [herr e he]
    simp
  have hsq : listSum (((alignPairs rows).map fun pr => pr.1 - pr.2).map
      fun e => e ^ 2) = 0 := by
    apply listSum_zero_of_all_zero
    intro x hx
    rcases List.mem_map.mp hx with ⟨e, he, rfl⟩
    rw [herr e he]
    ring
  have hmape : listSum ((mapePairs (alignPairs rows)).map
      fun pr => |pr.1 - pr.2| / |pr.1|) = 0 := by
    apply listSum_zero_of_all_zero
    intro x hx
    rcases List.mem_map.mp hx with ⟨pr, hpr, rfl⟩
    rw [hperfect pr (List.mem_of_mem_filter hpr)]
    simp
  refine ⟨?_, ?_, ?_, ?_, ?_⟩
  · rw [← h1, if_neg hnz, hmape]
    norm_num
  · rw [← h3, habs, zero_div]
  · rw [← h4, hsq, zero_div]
  · rw [← h5, hsum]
    norm_num
  · refine ⟨le_refl 0, ?_⟩
    rw [← h4, hsq]
    norm_num

/-- Witness for C5: on the perfectly matching rows
[(actual 3, forecast 3), (actual 1, forecast 1)] every claimed metric is
exactly zero. -/
theorem perfect_forecast_zero_metrics_witness :
    metricsPerfectValue.mape = some 0 ∧ metricsPerfectValue.mad = 0 ∧
    metricsPerfectValue.mse = 0 ∧ metricsPerfectValue.bias = 0 ∧
    isRMSE metricsPerfectValue 0 :=
  perfect_forecast_zero_metrics metricsPerfectRows metricsPerfectValue
    (by decide)
    (by
      norm_num [computeMetrics, alignPairs, mapePairs, listSum,
        metricsPerfectRows, metricsPerfectValue, List.filterMap_cons, List.filter_cons]
      simp)
    (by decide)
    (by norm_num [listMean, listSum, alignPairs, metricsPerfectRows,
      List.filterMap_cons])

/-- C8: metric computation is deterministic across a persistence round trip:
persisting the aligned actuals and forecasts into detail rows, reloading
them, and recomputing yields exactly the same metric values. -/
theorem metrics_round_trip_deterministic (rows : List (Option ℚ × ℚ)) :
    computeMetrics (reloadPairs (persistActuals rows)) = computeMetrics rows := by
  have h : reloadPairs (persistActuals rows) = rows := by
    induction rows with
    | nil => rfl
    | cons r rs ih =>
      simp [reloadPairs, persistActuals, List.map_map] at ih ⊢
      exact ih
  rw [h]

/-- Witness for C10: registering a concrete user without a role field yields
status 201 and a stored role of admin. -/
theorem register_default_role_admin_witness :
    registerHandler [] (fun s => s)
        { email := some ("a@b.c"), password := some ("pw"), name := some ("Ada L"),
          tenantId := some ("t1"), role := none } =
      ({ status := 201, message := ("User created successfully") },
        some { email := ("a@b.c"), passwordHash := ("pw"), name := ("Ada L"),
               tenantId := ("t1"), role := ("admin") }) := by
  exact register_default_role_admin [] (fun s => s) ("a@b.c") ("pw") ("Ada L") ("t1")
    (by decide) (by decide) (by decide) (by decide) (by decide)

/-- C2: for every one of the six models and every fitted state, forecasting
a horizon of zero periods returns the empty detail sequence (and, the
forecast functions being total, never an error). -/
theorem forecast_zero_horizon_empty (s : FittedState) : forecastModel s 0 = [] := by
  cases s <;>
    simp [forecastModel, smaForecast, wmaForecast, expSmoothingForecast,
      holtWintersForecast, arimaForecast, prophetForecast, flatForecast,
      armaRecurse, List.zip_nil_right]

/-- C6: an SMA fit that succeeds has as its level the unweighted mean of the
last `window` series points and forecasts that level at every horizon step;
in particular SMA with window 3 on [10, 20, 30] forecasts exactly 20 for
every future period. -/
theorem sma_mean_flat_forecast :
    (∀ (w : Nat) (xs : List ℚ) (st : SmaState), smaFit w xs = Except.ok st →
      st.level = listMean (lastWindow w xs) ∧
      ∀ n, (smaForecast st n).map Prod.fst = List.replicate n st.level) ∧
    (smaFit 3 [10, 20, 30] = Except.ok smaExampleState ∧
      ∀ n, (smaForecast smaExampleState n).map Prod.fst =
        List.replicate n (20 : ℚ)) := by
  constructor
  · intro w xs st hfit
    simp only [smaFit] at hfit
    split at hfit
    · exact absurd hfit (by simp)
    · split at hfit
      · exact absurd hfit (by simp)
      · have h2 := Except.ok.inj hfit
        subst h2
        exact ⟨rfl, fun n => by simp [smaForecast, flatForecast, List.map_replicate]⟩
  · constructor
    · norm_num [smaFit, lastWindow, listMean, listSum, sampleVar,
        smaBacktestResiduals, smaExampleState]
    · intro n
      simp [smaForecast, flatForecast, List.map_replicate, smaExampleState]

/-- Witness for C6: applying the general SMA statement to window 3 and the
series [10, 20, 30] gives the fitted level 20 and a flat two-step forecast. -/
theorem sma_mean_flat_forecast_witness :
    smaExampleState.level = listMean (lastWindow 3 [10, 20, 30]) ∧
    (smaForecast smaExampleState 2).map Prod.fst =
      List.replicate 2 smaExampleState.level := by
  have h := sma_mean_flat_forecast.1 3 [10, 20, 30] smaExampleState
    (by norm_num [smaFit, lastWindow, listMean, listSum, sampleVar,
      smaBacktestResiduals, smaExampleState])
  exact ⟨h.1, h.2 2⟩

/-- With alpha = 1 the recursive level update keeps only the newest value. -/
theorem expStep_one (lvl v : ℚ) : expStep 1 lvl v = v := by
  simp [expStep]

/-- Folding the alpha = 1 update over a list lands on its last element. -/
theorem foldl_expStep_one (rest : List ℚ) (x : ℚ) :
    rest.foldl (expStep 1) x = rest.getLastD x := by
  induction rest generalizing x with
  | nil => rfl
  | cons v vs ih =>
    rw [List.foldl_cons, expStep_one, ih]
    simp only [List.getLastD_cons]

/-- The final level of an alpha = 1 fit is the last observed value. -/
theorem expLevel_one (x : ℚ) (rest : List ℚ) :
    expLevel 1 (x :: rest) = (x :: rest).getLastD 0 := by
  show rest.foldl (expStep 1) x = (x :: rest).getLastD 0
  rw [foldl_expStep_one]
  simp only [List.getLastD_cons]

/-- C7: on every non-empty series, Exponential Smoothing with alpha = 1
produces at every horizon step the same point forecast as a naive
last-observed-value forecast, because the recursive level update with
alpha = 1 makes the final level equal the last series value. -/
theorem exp_smoothing_alpha_one_naive (xs : List ℚ) (st : ExpSmoothingState)
    (hne : xs ≠ []) (hfit : expSmoothingFit 1 xs = Except.ok st) :
    ∀ n, (expSmoothingForecast st n).map Prod.fst = naiveForecast xs n := by
  cases xs with
  | nil => exact absurd rfl hne
  | cons x rest =>
    rw [expSmoothingFit, if_neg (by norm_num)] at hfit
    have h2 := Except.ok.inj hfit
    subst h2
    intro n
    simp only [expSmoothingForecast, flatForecast, List.map_replicate,
      naiveForecast, expLevel_one]

/-- Witness for C7: with alpha = 1 on the series [10, 20] the three-step
forecast coincides with the naive last-observed-value forecast. -/
theorem exp_smoothing_alpha_one_naive_witness :
    (expSmoothingForecast expExampleState 3).map Prod.fst =
      naiveForecast [10, 20] 3 :=
  exp_smoothing_alpha_one_naive [10, 20] expExampleState (by simp)
    (by norm_num [expSmoothingFit, expLevel, expStep, expErrAux,
      expOneStepErrors, sampleVar, expExampleState]) 3

/-- C4: the Orchestrator rejects an unknown model type, a non-positive
horizon, or an invalid granularity with a ConfigurationError whose result
does not depend on the pipeline or the observations — no preparation, fit,
forecast or metric stage is consulted — while a valid configuration is
handed to the pipeline unchanged. -/
theorem configuration_rejected_before_computation
    (modelType granularity : String) (horizonDays : Int) :
    ((parseModelType modelType = none ∨ horizonDays ≤ 0 ∨
        parseGranularity granularity = none) →
      ∀ (pipeline : ModelType → Granularity → Nat → List ℚ →
          Except EngineError RunOutput) (observations : List ℚ),
        orchestratorRun pipeline modelType granularity horizonDays observations =
          Except.error (EngineError.configuration
            (configErrorMsg modelType granularity horizonDays))) ∧
    (∀ m g, parseModelType modelType = some m →
      parseGranularity granularity = some g → ¬ horizonDays ≤ 0 →
      ∀ pipeline observations,
        orchestratorRun pipeline modelType granularity horizonDays observations =
          pipeline m g (horizonPeriods g horizonDays) observations) := by
  constructor
  · intro hbad pipeline observations
    cases hm : parseModelType modelType with
    | none => simp [orchestratorRun, configErrorMsg, hm]
    | some m =>
      by_cases hh : horizonDays ≤ 0
      · simp [orchestratorRun, configErrorMsg, hm, hh]
      · cases hg : parseGranularity granularity with
        | none => simp [orchestratorRun, configErrorMsg, hm, hh, hg]
        | some g =>
          rcases hbad with h | h | h
          · rw [hm] at h
            exact absurd h (by simp)
          · exact absurd h hh
          · rw [hg] at h
            exact absurd h (by simp)
  · intro m g hm hg hh pipeline observations
    simp [orchestratorRun, hm, hg, hh]

/-- Witness for C4: the unknown model type code fourier is rejected with a
ConfigurationError even though the supplied pipeline would have succeeded. -/
theorem configuration_rejected_before_computation_witness :
    orchestratorRun (fun _ _ _ _ => Except.ok []) ("fourier") ("daily") 90 [] =
      Except.error (EngineError.configuration
        (configErrorMsg ("fourier") ("daily") 90)) :=
  (configuration_rejected_before_computation ("fourier") ("daily") 90).1
    (Or.inl (by simp [parseModelType])) (fun _ _ _ _ => Except.ok []) []

end Tessera
